import Mathlib

/-!
# Verification of the modelscraper crawl core

A shallow embedding of the crawl orchestration and extraction pipeline of the
modelscraper repository, together with theorems settling the specification
claims about it.

Conventions of the embedding:
* Python dicts of attributes are represented as insertion-ordered lists of
  `SAttr` entries with pairwise-distinct names; `dictInsert` mirrors
  `d[k] = v` (overwrite in place, else append).
* The resolved value of an attribute is a `List String`; the empty list models
  a Python-falsy value (`not attr.value`).
* The `pybloom.ScalableBloomFilter` seen/forwarded sets are modelled by exact
  `List String` membership, i.e. the filter at its ideal zero-false-positive
  behaviour (the library is an external dependency, not repository code).
* Fallible Python code (`AttributeError`, `NameError`, `IndexError`,
  `KeyError`) is modelled with `Except PyErr`.
-/

namespace Modelscraper

/-- Python exceptions that the embedded code can raise. -/
inductive PyErr where
  | attributeError (msg : String)
  | nameError (missing : String)
  | indexError (i : Nat)
  | keyError (k : String)
  | typeError (msg : String)
  | assertionError
deriving Repr, DecidableEq

/-- A resolved attribute value.  The empty list models a Python-falsy value. -/
abbrev AttrValue := List String

/-- One named attribute of a record or of a `Source` (`components.Attr` with
its value already resolved: name plus value are the only fields the claims
touch after resolution). -/
structure SAttr where
  name : String
  value : AttrValue
deriving Repr, DecidableEq

/-- The `copy_attrs` selection of a `Source` (`components.Source.copy_attrs`).
`helpers.str_as_tuple` converts a single name to a one-element tuple, so after
construction the field is `None`, a tuple of names, a dict renaming attrs, or
some other (non-iterable) truthy marker used for the copy-all policy. -/
inductive CopyAttrs where
  | noCopy
  | names (l : List String)
  | renames (l : List (String × String))
  | allMode
deriving Repr, DecidableEq

/-- A request descriptor, `components.Source`, restricted to the fields the
claims exercise.  Defaults follow the attr.ib defaults in the source. -/
structure Source where
  url : String := ""
  active : Bool := true
  duplicate : Bool := false
  attrs : List SAttr := []
  copy_attrs : CopyAttrs := CopyAttrs.noCopy
  src_template : String := ""
  from_db : Option String := Option.none
deriving Repr, DecidableEq

/-- A record assembled during parsing (`Template._replicate` result): just its
ordered attribute dict. -/
structure Obj where
  attrs : List SAttr := []
deriving Repr, DecidableEq

/-- A scheduling unit, `components.Phase`, restricted to the fields that
`ScrapeWorker.add_sources` reads.  The parser/templates/worker fields are
external collaborators for the claims below. -/
structure Phase where
  synchronize : Bool := false
  sources : List Source := []
deriving Repr, DecidableEq

/-- The mutable state of a `ScrapeWorker` during one phase: live source queue,
parse queue, sources currently held by fetch workers, the seen/forwarded
membership structures, the forward-list for the next phase, and the
pending/completed counters `to_parse`/`parsed`. -/
structure WState where
  source_q : List Source := []
  parse_q : List Source := []
  in_flight : List Source := []
  seen : List String := []
  forwarded : List String := []
  to_forward : List Source := []
  to_parse : Nat := 0
  parsed : Nat := 0
deriving Repr, DecidableEq

/-- The state of a worker at the start of a phase. -/
def initState : WState := {}

/-- `ScrapeWorker._add_source` (scrape_worker.py:194-203): a source is put on
the live queue (and its url recorded as seen, `to_parse` incremented) when its
url is truthy, not already seen (unless `duplicate`), and not forwarded, and
the source is active; with the same url conditions but inactive it goes to the
forward-list and its url into the forwarded set; otherwise nothing happens. -/
def addSource (st : WState) (s : Source) : WState :=
  if s.url ≠ "" ∧ (s.url ∉ st.seen ∨ s.duplicate = true) ∧ s.url ∉ st.forwarded then
    if s.active then
      { st with to_parse := st.to_parse + 1,
                source_q := st.source_q ++ [s],
                seen := st.seen ++ [s.url] }
    else
      { st with to_forward := st.to_forward ++ [s],
                forwarded := st.forwarded ++ [s.url] }
  else st

/-- A source with an empty url used to refute the unqualified admission rule
of claim C1. -/
def blankSrc : Source := { url := "" }

/-- C1, counterexample.  The claim says a source is admitted to the live queue
iff it is active, its url is unseen (or `duplicate`), and its url is not
forwarded.  `blankSrc` satisfies all three conditions in the initial state,
yet `_add_source` leaves the queue (and the whole state) unchanged, because
the code additionally requires a truthy `source.url`. -/
theorem c1_counterexample :
    (blankSrc.active = true
      ∧ (blankSrc.url ∉ initState.seen ∨ blankSrc.duplicate = true)
      ∧ blankSrc.url ∉ initState.forwarded)
    ∧ (addSource initState blankSrc).source_q = initState.source_q
    ∧ (addSource initState blankSrc).to_forward = initState.to_forward := by
  refine ⟨⟨rfl, ?_, ?_⟩, ?_, ?_⟩ <;> simp [addSource, blankSrc, initState]

/-- C1, amended.  `_add_source` admits a source to the live queue iff its url
is non-empty AND it is active AND (its url is not in the seen set OR
`duplicate` is true) AND its url is not in the forwarded set; under the same
url/dedup conditions an inactive source is appended to the forward-list
instead; and a source whose url is already in the seen set is ignored
entirely unless `duplicate` is true. -/
theorem c1_amended_addSource (st : WState) (s : Source) :
    ((addSource st s).source_q = st.source_q ++ [s]
      ↔ s.url ≠ "" ∧ s.active = true
          ∧ (s.url ∉ st.seen ∨ s.duplicate = true) ∧ s.url ∉ st.forwarded)
    ∧ ((addSource st s).to_forward = st.to_forward ++ [s]
      ↔ s.url ≠ "" ∧ s.active = false
          ∧ (s.url ∉ st.seen ∨ s.duplicate = true) ∧ s.url ∉ st.forwarded)
    ∧ (s.url ∈ st.seen → s.duplicate = false → addSource st s = st) := by
  unfold addSource
  by_cases hc : s.url ≠ "" ∧ (s.url ∉ st.seen ∨ s.duplicate = true) ∧ s.url ∉ st.forwarded
  · rw [if_pos hc]
    by_cases ha : s.active
    · rw [if_pos ha]
      refine ⟨?_, ?_, ?_⟩
      · simp only [true_iff, iff_true]
        exact ⟨hc.1, ha, hc.2.1, hc.2.2⟩
      · constructor
        · intro h
          have := congrArg List.length h
          simp at this
        · rintro ⟨-, hfalse, -⟩
          rw [ha] at hfalse
          cases hfalse
      · intro hseen hdup
        rcases hc.2.1 with h | h
        · exact absurd hseen h
        · rw [hdup] at h
          cases h
    · rw [if_neg ha]
      have ha' : s.active = false := by
        cases hact : s.active
        · rfl
        · exact absurd hact ha
      refine ⟨?_, ?_, ?_⟩
      · constructor
        · intro h
          have := congrArg List.length h
          simp at this
        · rintro ⟨-, htrue, -⟩
          rw [ha'] at htrue
          cases htrue
      · simp only [true_iff, iff_true]
        exact ⟨hc.1, ha', hc.2.1, hc.2.2⟩
      · intro hseen hdup
        rcases hc.2.1 with h | h
        · exact absurd hseen h
        · rw [hdup] at h
          cases h
  · rw [if_neg hc]
    refine ⟨?_, ?_, fun _ _ => rfl⟩
    · constructor
      · intro h
        have := congrArg List.length h
        simp at this
      · rintro ⟨h1, -, h3, h4⟩
        exact absurd ⟨h1, h3, h4⟩ hc
    · constructor
      · intro h
        have := congrArg List.length h
        simp at this
      · rintro ⟨h1, -, h3, h4⟩
        exact absurd ⟨h1, h3, h4⟩ hc

/-- C1, witness: the amended admission rule evaluated at a fresh active source
with a non-empty url in the initial state. -/
theorem c1_witness :
    (addSource initState { url := "a" }).source_q
      = initState.source_q ++ [{ url := "a" }] :=
  (c1_amended_addSource initState { url := "a" }).1.mpr
    (by refine ⟨?_, rfl, ?_, ?_⟩ <;> simp [initState])

/-- One atomic step of a phase's processing.  `enqueue` and `seed` are the two
places the repository increments `to_parse` (`_add_source` and `add_sources`);
`parsePop` is the body of `parse_sources` that increments `parsed`
(scrape_worker.py:97-100, including the `seen.add` on line 98); `resetQ` is
`reset_source_queue`.  The fetch-pool transitions `fetchStart`, `fetchDone`
and `fetchDrop` are Modelled from the spec: the fetch worker implementation
(`WebSource`, workers/http_worker.py / sources.py) is not under src/; per
spec section 4.2 a worker dequeues a source, and on success pushes it to the
parse queue, while on exhausted retries it drops the source and counts it as
completed. -/
inductive Step : WState → WState → Prop where
  | enqueue (s : Source) (st : WState) : Step st (addSource st s)
  | seed (s : Source) (st : WState) (h : s.active = true) :
      Step st { st with source_q := st.source_q ++ [s],
                        to_parse := st.to_parse + 1 }
  | fetchStart (st : WState) (s : Source) (rest : List Source)
      (h : st.source_q = s :: rest) :
      Step st { st with source_q := rest,
                        in_flight := st.in_flight ++ [s] }
  | fetchDone (st : WState) (s : Source) (pre post : List Source)
      (h : st.in_flight = pre ++ s :: post) :
      Step st { st with in_flight := pre ++ post,
                        parse_q := st.parse_q ++ [s] }
  | fetchDrop (st : WState) (s : Source) (pre post : List Source)
      (h : st.in_flight = pre ++ s :: post) :
      Step st { st with in_flight := pre ++ post,
                        parsed := st.parsed + 1 }
  | parsePop (st : WState) (s : Source) (rest : List Source)
      (h : st.parse_q = s :: rest) :
      Step st { st with parse_q := rest,
                        parsed := st.parsed + 1,
                        seen := st.seen ++ [s.url] }
  | resetQ (st : WState) : Step st { st with source_q := [] }

/-- The states a phase's processing can reach from the fresh per-phase state. -/
def Reachable (st : WState) : Prop :=
  Relation.ReflTransGen Step initState st

/-- The conservation invariant tying the counters to the queues: every source
counted pending is either completed or still sitting in one of the three
stages (live queue, fetch worker, parse queue).  `reset_source_queue` can
discard queued sources without completing them, so only an inequality is
invariant. -/
def PhaseInv (st : WState) : Prop :=
  st.parsed + st.source_q.length + st.in_flight.length + st.parse_q.length
    ≤ st.to_parse

/-- The exit of `parse_sources` at scrape_worker.py:83-84: the counters agree. -/
def counterExit (st : WState) : Prop := st.to_parse = st.parsed

/-- The exit of `parse_sources` at scrape_worker.py:86-90: the blocking get on
the parse queue timed out (so the parse queue is empty) and the live source
queue is empty. -/
def timeoutExit (st : WState) : Prop := st.parse_q = [] ∧ st.source_q = []

theorem addSource_phaseInv (st : WState) (s : Source) (h : PhaseInv st) :
    PhaseInv (addSource st s) := by
  unfold PhaseInv addSource at *
  split
  · split <;> simp <;> omega
  · exact h

theorem step_phaseInv {st st' : WState} (hs : Step st st') (h : PhaseInv st) :
    PhaseInv st' := by
  cases hs with
  | enqueue s st => exact addSource_phaseInv st s h
  | seed s st ha =>
    unfold PhaseInv at *
    simp
    omega
  | fetchStart st s rest hq =>
    unfold PhaseInv at *
    rw [hq] at h
    simp at h ⊢
    omega
  | fetchDone st s pre post hq =>
    unfold PhaseInv at *
    rw [hq] at h
    simp at h ⊢
    omega
  | fetchDrop st s pre post hq =>
    unfold PhaseInv at *
    rw [hq] at h
    simp at h ⊢
    omega
  | parsePop st s rest hq =>
    unfold PhaseInv at *
    rw [hq] at h
    simp at h ⊢
    omega
  | resetQ st =>
    unfold PhaseInv at *
    simp
    omega

theorem reachable_phaseInv {st : WState} (h : Reachable st) : PhaseInv st := by
  induction h with
  | refl => simp [PhaseInv, initState]
  | tail _ hstep ih => exact step_phaseInv hstep ih

/-- C2, amended.  In every reachable state of a phase's processing the pending
counter dominates the completed counter (`to_parse - parsed ≥ 0`), and when
the phase exits through the counter check (`to_parse == parsed`) the
difference is exactly 0 and both the live source queue and the parse queue
are empty.  (The timeout exit is the part of the claim that fails; see the
counterexample.) -/
theorem c2_amended_conservation (st : WState) (h : Reachable st) :
    st.parsed ≤ st.to_parse
    ∧ (counterExit st →
        st.source_q = [] ∧ st.parse_q = [] ∧ st.to_parse - st.parsed = 0) := by
  have hinv := reachable_phaseInv h
  unfold PhaseInv at hinv
  refine ⟨by omega, fun hc => ?_⟩
  unfold counterExit at hc
  have hsq : st.source_q.length = 0 := by omega
  have hpq : st.parse_q.length = 0 := by omega
  exact ⟨List.length_eq_zero.mp hsq, List.length_eq_zero.mp hpq, by omega⟩

/-- C2, witness: the conservation facts evaluated at the (trivially reachable)
initial state. -/
theorem c2_witness : initState.parsed ≤ initState.to_parse :=
  (c2_amended_conservation initState Relation.ReflTransGen.refl).1

/-- The source fetched in the counterexample run for C2. -/
def srcA : Source := { url := "a" }

/-- The state after enqueueing `srcA` in the initial state. -/
def stA1 : WState := { source_q := [srcA], seen := ["a"], to_parse := 1 }

/-- The state after a fetch worker has dequeued `srcA` and is fetching it:
both queues empty, one source in flight, counters 1 and 0. -/
def stA2 : WState := { in_flight := [srcA], seen := ["a"], to_parse := 1 }

/-- C2, counterexample.  The claim says the phase is declared exhausted only
when `to_parse == parsed` and the live queue is empty, and that the
difference is exactly 0 at completion.  `stA2` is reachable (enqueue one
source, a fetch worker dequeues it), and in it the timeout exit of
`parse_sources` fires — the parse queue get times out empty and the source
queue is empty — so the phase is declared exhausted while
`to_parse = 1 ≠ 0 = parsed`. -/
theorem c2_counterexample :
    Reachable stA2 ∧ timeoutExit stA2 ∧ ¬ counterExit stA2 := by
  refine ⟨?_, ⟨rfl, rfl⟩, fun h => ?_⟩
  · have h1 : Step initState stA1 := by
      have heq : addSource initState srcA = stA1 := by decide
      exact heq ▸ Step.enqueue srcA initState
    have h2 : Step stA1 stA2 := by
      have heq : stA2
          = { stA1 with source_q := [], in_flight := stA1.in_flight ++ [srcA] } := by
        decide
      rw [heq]
      exact Step.fetchStart stA1 srcA [] rfl
    exact Relation.ReflTransGen.tail (Relation.ReflTransGen.single h1) h2
  · have : (1 : Nat) = 0 := h
    cases this

/-- `BaseParser._apply_funcs` (parsers.py:182-187).  A transform stage is a
function from the previous stage's output and its own keyword-argument bundle
(type `K`) to the next value.  With a single function it is applied to the
elements with the first bundle; otherwise the first function is applied and
the recursion continues on the tails.  An empty pipeline, or a bundle list
exhausted before the pipeline (`kws[0]` on an empty list), is an IndexError,
modelled as `Option.none`. -/
def applyFuncs {V K : Type} (elements : V) :
    List (V → K → V) → List K → Option V
  | [f], k :: _ => Option.some (f elements k)
  | f :: g :: fs, k :: ks => applyFuncs (f elements k) (g :: fs) ks
  | _, _ => Option.none

/-- C3: for a 3-stage pipeline `[f, g, h]` with per-stage bundles
`[k0, k1, k2]` (in the claim's instance, `[empty, single-key, empty]`),
`_apply_funcs` returns `h (g (f elements k0) k1) k2`: stages compose
left-to-right, stage i's output feeding stage i+1, each stage receiving its
own bundle. -/
theorem c3_pipeline_composition {V K : Type} (f g h : V → K → V)
    (k0 k1 k2 : K) (elements : V) :
    applyFuncs elements [f, g, h] [k0, k1, k2]
      = Option.some (h (g (f elements k0) k1) k2) := rfl

/-- C3, witness: the 3-stage composition evaluated at concrete arithmetic
stages on `Nat`. -/
theorem c3_pipeline_witness :
    applyFuncs 5 [fun v k => v + k, fun v k => v * k, fun v k => v - k]
        [1, 2, 3]
      = Option.some ((5 + 1) * 2 - 3) :=
  c3_pipeline_composition (fun v k => v + k) (fun v k => v * k)
    (fun v k => v - k) 1 2 3 5

/-- The Python value passed as `kws` to the `Attr` constructor: a bare bundle
such as the default dict (anything that is neither a Python list nor a
tuple), a list of bundles, or a tuple of bundles. -/
inductive KwsInput (K : Type) where
  | single (k : K)
  | list (l : List K)
  | tuple (l : List K)
deriving Repr, DecidableEq

/-- `Attr.__attrs_post_init__` (components.py:80-89).  A non-list, non-tuple
`kws` is wrapped as the one-element tuple `(self.kws,)`; then
`difference = len(self.func) - len(self.kws)` and, if `difference` is
non-zero, the code appends `{}` to `self.kws` `difference` times (zero times
when `difference` is negative, since `range` of a negative is empty).
`.append` exists only on lists, so the first append on a tuple raises
AttributeError.  `emptyK` stands for the empty bundle `{}` and `funcLen` for
`len(self.func)`. -/
def attrPostKws {K : Type} (emptyK : K) (funcLen : Nat) (kws : KwsInput K) :
    Except PyErr (List K) :=
  let l : List K :=
    match kws with
    | KwsInput.single k => [k]
    | KwsInput.list l => l
    | KwsInput.tuple l => l
  let isList : Bool :=
    match kws with
    | KwsInput.list _ => true
    | _ => false
  let difference : Int := (funcLen : Int) - l.length
  if 0 < difference then
    if isList then Except.ok (l ++ List.replicate (funcLen - l.length) emptyK)
    else Except.error (PyErr.attributeError "tuple object has no attribute append")
  else Except.ok l

/-- C4: evaluation at the failing input.  An `Attr` with a 2-stage pipeline
and the default keyword bundle (a bare dict, hence wrapped into a 1-tuple)
crashes with AttributeError during construction instead of being padded,
while the same bundle passed as a Python list is padded to the pipeline
length as the claim states.  Bundles are represented by `Nat` markers, `0`
standing for the empty bundle. -/
theorem c4_code_bug_eval :
    attrPostKws (0 : Nat) 2 (KwsInput.single 0)
      = Except.error (PyErr.attributeError "tuple object has no attribute append")
    ∧ attrPostKws (0 : Nat) 2 (KwsInput.list [0]) = Except.ok [0, 0]
    ∧ attrPostKws (0 : Nat) 2 (KwsInput.tuple [0, 0]) = Except.ok [0, 0] := by
  refine ⟨rfl, rfl, rfl⟩

/-- What `_value` returns: a single element (`parsed[i]` or the singleton
element) or the whole list. -/
inductive PyRes (V : Type) where
  | one (v : V)
  | many (l : List V)
deriving Repr, DecidableEq

/-- `BaseParser._value` (parsers.py:189-194).  A one-element list yields its
element regardless of the index; otherwise a truthy index (a non-zero number;
`0` and `None` are falsy) selects `parsed[index]` (IndexError when out of
range), and a falsy index yields the whole list.  Indices are `Nat` here:
the claims only concern non-negative Python indices. -/
def pyValue {V : Type} : List V → Option Nat → Except PyErr (PyRes V)
  | [x], _ => Except.ok (PyRes.one x)
  | l, Option.some i =>
    if i = 0 then Except.ok (PyRes.many l)
    else
      match l.get? i with
      | Option.some x => Except.ok (PyRes.one x)
      | Option.none => Except.error (PyErr.indexError i)
  | l, Option.none => Except.ok (PyRes.many l)

/-- Python `t.lstrip().rstrip()` with no arguments: remove whitespace from
both ends of the string. -/
def pyStrip (s : String) : String :=
  String.mk
    (((s.data.dropWhile Char.isWhitespace).reverse.dropWhile
        Char.isWhitespace).reverse)

/-- The text preprocessing of `BaseParser._sel_text` (parsers.py:245-252)
with `modify_text` left at its defaults: drop falsy (empty) strings, strip
surrounding whitespace; `modify_text` with no replacers, empty regex, no
needle and `numbers=False` passes the text through unchanged. -/
def stripFilter (text : List String) : List String :=
  (text.filter (fun t => t ≠ "")).map pyStrip

/-- `_sel_text` restricted to its default keyword arguments, as called by the
public `sel_text`/`sel_attr` transforms when only an index is supplied:
preprocess the text, then `_value`. -/
def selTextPlain (text : List String) (index : Option Nat) :
    Except PyErr (PyRes String) :=
  pyValue (stripFilter text) index

theorem pyValue_cons2 {V : Type} (a b : V) (t : List V) (idx : Option Nat) :
    pyValue (a :: b :: t) idx
      = match idx with
        | Option.some i =>
          if i = 0 then Except.ok (PyRes.many (a :: b :: t))
          else
            match (a :: b :: t).get? i with
            | Option.some x => Except.ok (PyRes.one x)
            | Option.none => Except.error (PyErr.indexError i)
        | Option.none => Except.ok (PyRes.many (a :: b :: t)) := by
  cases idx <;> rfl

/-- C10: `_value` treats index 0 exactly like no index.  On a list with at
least 2 elements, index 0 returns the whole list rather than the element at
position 0; a non-zero in-range index `i` returns `parsed[i]`; a singleton
list returns its single element regardless of the index; and consequently
`sel_text` (with default keyword arguments) called with index 0 returns the
whole preprocessed list. -/
theorem c10_value_index_semantics {V : Type} (parsed : List V) (i : Nat)
    (x y : V) (h2 : 2 ≤ parsed.length) (hi : i ≠ 0)
    (hx : parsed.get? i = Option.some x) :
    pyValue parsed (Option.some 0) = Except.ok (PyRes.many parsed)
    ∧ pyValue parsed (Option.some i) = Except.ok (PyRes.one x)
    ∧ (∀ idx : Option Nat, pyValue [y] idx = Except.ok (PyRes.one y))
    ∧ (∀ text : List String, 2 ≤ (stripFilter text).length →
        selTextPlain text (Option.some 0)
          = Except.ok (PyRes.many (stripFilter text))) := by
  have hmany : ∀ (W : Type) (l : List W), 2 ≤ l.length →
      pyValue l (Option.some 0) = Except.ok (PyRes.many l) := by
    intro W l hl
    match l, hl with
    | a :: b :: t, _ => rw [pyValue_cons2]; simp
  refine ⟨hmany V parsed h2, ?_, ?_, ?_⟩
  · match parsed, h2, hx with
    | a :: b :: t, _, hx =>
      rw [pyValue_cons2]
      simp only [if_neg hi]
      rw [hx]
  · intro idx
    cases idx <;> rfl
  · intro text hlen
    unfold selTextPlain
    exact hmany String (stripFilter text) hlen

/-- C10, witness: index-0, index-1 and singleton behaviour evaluated on the
concrete lists `[10, 20]` and `[7]`, and `sel_text` with index 0 on two
non-empty strings. -/
theorem c10_value_index_witness :
    pyValue [10, 20] (Option.some 0) = Except.ok (PyRes.many [10, 20])
    ∧ pyValue [10, 20] (Option.some 1) = Except.ok (PyRes.one 20)
    ∧ pyValue [(7 : Nat)] (Option.some 0) = Except.ok (PyRes.one 7)
    ∧ selTextPlain [" a ", "b"] (Option.some 0)
        = Except.ok (PyRes.many ["a", "b"]) := by
  have h := c10_value_index_semantics [10, 20] 1 20 (7 : Nat)
    (by decide) (by decide) (by decide)
  have hs : stripFilter [" a ", "b"] = ["a", "b"] := by decide
  refine ⟨h.1, h.2.1, h.2.2.1 (Option.some 0), ?_⟩
  have := h.2.2.2 [" a ", "b"] (by decide)
  rwa [hs] at this

/-- Python dict assignment `d[k] = v` on an insertion-ordered attribute dict:
overwrite in place when the name is present, else append. -/
def dictInsert (d : List SAttr) (a : SAttr) : List SAttr :=
  if d.any (fun x => x.name = a.name) then
    d.map (fun x => if x.name = a.name then a else x)
  else d ++ [a]

/-- Python `d.get(k)` / `d[k]` lookup on an attribute dict. -/
def dGet (d : List SAttr) (name : String) : Option SAttr :=
  d.find? (fun a => a.name = name)

/-- The attrs of the fresh record built by
`template._replicate(name=template.name, url=source.url, func=template.func)`
followed by the source-attr loop (parsers.py:123-128): `Template`'s
post-init synthesizes a `url` attr when the url is truthy, and then every
attr of the originating source is copied in. -/
def mkBaseAttrs (source : Source) : List SAttr :=
  let withUrl : List SAttr :=
    if source.url ≠ "" then [{ name := "url", value := [source.url] }] else []
  source.attrs.foldl dictInsert withUrl

/-- The attrs yielded by `BaseParser._gen_attrs` for one extracted item: each
template attr name resolved against the item's data.  `resolve` stands for
the composition of the attr's selector and transform pipeline, both external
collaborators (`SelectorEngine`, transform registry) from the point of view
of `_gen_objects`. -/
def newAttrsOf {D : Type} (resolve : String → D → AttrValue)
    (tAttrNames : List String) (data : D) : List SAttr :=
  tAttrNames.map (fun n => { name := n, value := resolve n data })

/-- The record attrs after the `_gen_attrs` loop of `_gen_objects`
(parsers.py:133-134): the newly resolved attrs inserted into the base dict. -/
def objAttrsOf {D : Type} (resolve : String → D → AttrValue)
    (tAttrNames : List String) (source : Source) (data : D) : List SAttr :=
  (newAttrsOf resolve tAttrNames data).foldl dictInsert (mkBaseAttrs source)

/-- `no_value` of `_gen_objects` (parsers.py:130-137): how many of the newly
resolved attrs have a falsy value. -/
def noValueCount {D : Type} (resolve : String → D → AttrValue)
    (tAttrNames : List String) (data : D) : Nat :=
  ((newAttrsOf resolve tAttrNames data).filter (fun a => a.value = [])).length

/-- The guard on the fallback extractor at parsers.py:145:
`getattr(self, '_fallback', None) and False` — never truthy, whether or not
the parser class defines `_fallback`. -/
def fallbackGuard (hasFallback : Bool) : Bool := hasFallback && false

/-- The body of the `_gen_objects` loop (parsers.py:121-160) for one
extracted item: build the record, and skip it (the fallback guard being
always false) exactly when `no_value == len(objct.attrs) - len(source.attrs)`.
Record-spawning (`template.source`) is independent of the claims handled
here and omitted from the produced record. -/
def genObject1 {D : Type} (resolve : String → D → AttrValue)
    (tAttrNames : List String) (source : Source) (data : D) : Option Obj :=
  if noValueCount resolve tAttrNames data
      = (objAttrsOf resolve tAttrNames source data).length - source.attrs.length
  then Option.none
  else Option.some { attrs := objAttrsOf resolve tAttrNames source data }

/-- `BaseParser._gen_objects` (parsers.py:114-160): the records generated
from the extracted items, failed extractions skipped. -/
def genObjects {D : Type} (resolve : String → D → AttrValue)
    (tAttrNames : List String) (source : Source) (extracted : List D) :
    List Obj :=
  extracted.filterMap (genObject1 resolve tAttrNames source)

/-- The originating source of the C6 counterexample: a plain fetched url with
no pre-populated attrs — the ordinary case. -/
def srcC6 : Source := { url := "u" }

/-- C6, counterexample.  For the item below every newly-extracted field fails
(the only template attr resolves to a falsy value), so the claim says the
item is a failed extraction and no record is emitted.  But
`template._replicate(url=source.url)` synthesizes a `url` attr, so
`len(objct.attrs) - len(source.attrs)` is 2 while `no_value` is 1, the skip
condition misses, and `_gen_objects` emits a record anyway. -/
theorem c6_counterexample :
    ((newAttrsOf (fun _ _ => []) ["title"] ()).filter
        (fun a => a.value = [])).length
      = (newAttrsOf (fun _ _ => []) ["title"] ()).length
    ∧ genObjects (fun _ _ => []) ["title"] srcC6 [()]
        = [{ attrs := [{ name := "url", value := ["u"] },
                       { name := "title", value := [] }] }] := by
  refine ⟨rfl, ?_⟩
  decide

/-- C6, amended.  The skip condition `_gen_objects` actually implements is
`no_value == len(objct.attrs) - len(source.attrs)`, where `objct.attrs` also
contains the `url` attr synthesized from `source.url`; when that equality
holds the item yields no record and processing continues with the remaining
items, and the fallback guard is never truthy in any pipeline.  (Total
failure of the newly-extracted fields implies the equality — and hence the
skip — only when no extra `url` attr was synthesized, e.g. when `url` is
among the source's pre-populated attrs; otherwise a record is emitted, see
the counterexample.) -/
theorem c6_amended_failed_item {D : Type} (resolve : String → D → AttrValue)
    (tAttrNames : List String) (source : Source) (data : D) (rest : List D)
    (hfail : noValueCount resolve tAttrNames data
      = (objAttrsOf resolve tAttrNames source data).length
          - source.attrs.length) :
    genObjects resolve tAttrNames source (data :: rest)
      = genObjects resolve tAttrNames source rest
    ∧ (∀ hasFallback : Bool, fallbackGuard hasFallback = false) := by
  constructor
  · unfold genObjects
    rw [List.filterMap_cons]
    have : genObject1 resolve tAttrNames source data = Option.none := by
      unfold genObject1
      rw [if_pos hfail]
    rw [this]
  · intro hasFallback
    cases hasFallback <;> rfl

/-- C6, witness: a source that pre-populates its own `url` attr, one template
attr resolving to a falsy value; the skip condition holds and the item
produces no record. -/
theorem c6_amended_witness :
    genObjects (fun _ (_ : Unit) => ([] : AttrValue)) ["title"]
        { url := "u", attrs := [{ name := "url", value := ["u"] }] } [()]
      = genObjects (fun _ (_ : Unit) => ([] : AttrValue)) ["title"]
        { url := "u", attrs := [{ name := "url", value := ["u"] }] }
        ([] : List Unit) :=
  (c6_amended_failed_item (fun _ (_ : Unit) => ([] : AttrValue)) ["title"]
    { url := "u", attrs := [{ name := "url", value := ["u"] }] } () []
    (by decide)).1

/-- `ScrapeWorker.reset_source_queue` (scrape_worker.py:231-237): get items
off the live queue until it is empty, discarding them. -/
def resetSourceQueue : List Source → List Source
  | [] => []
  | _ :: rest => resetSourceQueue rest

theorem resetSourceQueue_nil (q : List Source) : resetSourceQueue q = [] := by
  induction q with
  | nil => rfl
  | cons a rest ih => exact ih

/-- One iteration of the template loop of `BaseParser.parse`
(parsers.py:78-90) for a fetched document: the records for the template are
generated by `_gen_objects` from the extracted items, and if there are none
and the template is `required`, the parent worker's live source queue is
reset.  `required` is the template's flag. -/
def parseTemplate {D : Type} (resolve : String → D → AttrValue)
    (tAttrNames : List String) (required : Bool) (source : Source)
    (extracted : List D) (st : WState) : WState :=
  let objs := genObjects resolve tAttrNames source extracted
  if objs = [] ∧ required = true then
    { st with source_q := resetSourceQueue st.source_q }
  else st

/-- C5: a `required` template yielding zero records for a fetched document
drains the phase's live source queue to size 0 — every still-queued source is
discarded — while the counters are untouched (no retry is enqueued) and
processing returns normally (no crash: `reset_source_queue` swallows the
Empty exception). -/
theorem c5_required_template_empty {D : Type} (resolve : String → D → AttrValue)
    (tAttrNames : List String) (source : Source) (extracted : List D)
    (st : WState)
    (hzero : genObjects resolve tAttrNames source extracted = []) :
    (parseTemplate resolve tAttrNames true source extracted st).source_q = []
    ∧ (parseTemplate resolve tAttrNames true source extracted st).to_parse
        = st.to_parse
    ∧ (parseTemplate resolve tAttrNames true source extracted st).parsed
        = st.parsed := by
  unfold parseTemplate
  simp only [hzero, true_and, if_pos rfl]
  exact ⟨resetSourceQueue_nil st.source_q, rfl, rfl⟩

/-- C5, witness: a document with zero extracted items for a required
template, with two sources still queued; the queue is drained to 0. -/
theorem c5_required_template_witness :
    (parseTemplate (fun _ (_ : Unit) => ([] : AttrValue)) ["t"] true
        { url := "d" } ([] : List Unit)
        { source_q := [{ url := "x" }, { url := "y" }] }).source_q = [] :=
  (c5_required_template_empty (fun _ (_ : Unit) => ([] : AttrValue)) ["t"]
    { url := "d" } ([] : List Unit)
    { source_q := [{ url := "x" }, { url := "y" }] } rfl).1

/-- The three values a run of `ScrapeWorker.value_is_new`
(scrape_worker.py:205-210) can produce: Python `True`, `False`, or the
implicit `None` of falling off the end of the function. -/
inductive PyBoolOpt where
  | ptrue
  | pfalse
  | pnone
deriving Repr, DecidableEq

/-- Truthiness of those values at the call site
`if self.value_is_new(...)` in `_gen_source` (scrape_worker.py:188-190):
only `True` is truthy; `None` and `False` are falsy. -/
def pyTruthy : PyBoolOpt → Bool
  | PyBoolOpt.ptrue => true
  | _ => false

/-- `ScrapeWorker.value_is_new` (scrape_worker.py:205-210).  `dbObj` is the
result of the sink read `self.db.read(uri, objct)` (`None` when no prior
record is stored — note the receiver `self.db` is never assigned anywhere in
`ScrapeWorker`, which only defines `self.dbs`, so the call actually raises
AttributeError before reading; the read result is taken as a parameter
here).  When a prior record exists and has the attr, the values are
compared; every other path falls off the end of the function and returns
`None`.  Reading the missing attr from `objct` is a KeyError. -/
def value_is_new (dbObj : Option Obj) (objct : Obj) (name : String) :
    Except PyErr PyBoolOpt :=
  match dbObj with
  | Option.none => Except.ok PyBoolOpt.pnone
  | Option.some d =>
    match dGet d.attrs name with
    | Option.none => Except.ok PyBoolOpt.pnone
    | Option.some dbAttr =>
      match dGet objct.attrs name with
      | Option.none => Except.error (PyErr.keyError name)
      | Option.some objAttr =>
        if dbAttr.value ≠ objAttr.value then Except.ok PyBoolOpt.ptrue
        else Except.ok PyBoolOpt.pfalse

/-- The record of the C7 evaluation: one attr `price = 10`. -/
def objC7 : Obj := { attrs := [{ name := "price", value := ["10"] }] }

/-- C7: evaluation at the failing input.  When the sink read yields no prior
record, `value_is_new` falls through and returns `None`, which is falsy at
the `if self.value_is_new(...)` gate of `_gen_source` — so the derived
source is NOT emitted, where the claim (and spec section 7) says the
condition defaults to "value is new" and the source is emitted.  For
contrast, a stored prior record with a different value does return `True`
and emits. -/
theorem c7_code_bug_eval :
    value_is_new Option.none objC7 "price" = Except.ok PyBoolOpt.pnone
    ∧ pyTruthy PyBoolOpt.pnone = false
    ∧ value_is_new
        (Option.some { attrs := [{ name := "price", value := ["8"] }] })
        objC7 "price" = Except.ok PyBoolOpt.ptrue := by
  refine ⟨rfl, rfl, rfl⟩

/-- `hasattr(source.copy_attrs, 'iter')` at parsers.py:207.  No value that
can sit in `copy_attrs` (str, tuple, list, dict, or any other marker) has an
attribute named `iter` — Python's iteration method is `__iter__` — so the
test is false for every input. -/
def hasIterAttr (_ : CopyAttrs) : Bool := false

/-- `BaseParser._copy_attrs` (parsers.py:197-218).  The `type(...) == str`
branch is dead for every constructed `Source` (`str_as_tuple` converts a
single name to a one-element tuple at construction; and even when entered it
reads the bare name `copy_attrs`, which is not in scope, a NameError).  The
`hasattr(..., 'iter')` subset test is false for every value, so tuples and
lists of names fall through, with the copy-all case, to the final branch —
which assigns to `new_source`, a name that is not defined in the function
(its parameter is `source`), raising NameError. -/
def pyCopyAttrs (_objct : Obj) (source : Source) : Except PyErr Source :=
  if hasIterAttr source.copy_attrs then
    Except.error (PyErr.nameError "new_source")
  else
    Except.error (PyErr.nameError "new_source")

/-- The attr-copy block of `ScrapeWorker._gen_source`
(scrape_worker.py:175-184): the attrs placed on the derived source.  A falsy
`copy_attrs` copies nothing; with a tuple of names the assert checks every
name is an attr of the record and then each named attr is copied (a dict
additionally renames them); the copy-all policy has no representation on
this path — iterating a non-iterable marker in the assert raises TypeError. -/
def genSourceCopiedAttrs (objct : Obj) (c : CopyAttrs) :
    Except PyErr (List SAttr) :=
  match c with
  | CopyAttrs.noCopy => Except.ok []
  | CopyAttrs.names l =>
    if l.all (fun k => (dGet objct.attrs k).isSome) then
      Except.ok (l.filterMap (fun k => dGet objct.attrs k))
    else Except.error PyErr.assertionError
  | CopyAttrs.renames m =>
    if m.all (fun p => (dGet objct.attrs p.1).isSome) then
      Except.ok (m.filterMap (fun p =>
        (dGet objct.attrs p.1).map (fun a => { a with name := p.2 })))
    else Except.error PyErr.assertionError
  | CopyAttrs.allMode =>
    Except.error (PyErr.typeError "copy_attrs marker is not iterable")

/-- The record of the C8 evaluation: three attrs. -/
def objC8 : Obj :=
  { attrs := [{ name := "a", value := ["1"] }, { name := "b", value := ["2"] },
              { name := "c", value := ["3"] }] }

/-- C8: evaluation at the failing input.  On a 3-attr record, the copy-all
policy fails on both code paths — the template-level `_copy_attrs` raises
NameError (`new_source` is not defined), and the attr-level `_gen_source`
loop cannot iterate a copy-all marker — and `_copy_attrs` raises the same
NameError even for a named subset, because its guard tests for an `iter`
attribute instead of `__iter__`.  Only the `_gen_source` path with a single
name or a named subset produces exactly the selected attrs. -/
theorem c8_code_bug_eval :
    objC8.attrs.length = 3
    ∧ pyCopyAttrs objC8 { url := "u", copy_attrs := CopyAttrs.allMode }
        = Except.error (PyErr.nameError "new_source")
    ∧ pyCopyAttrs objC8 { url := "u", copy_attrs := CopyAttrs.names ["a", "b"] }
        = Except.error (PyErr.nameError "new_source")
    ∧ genSourceCopiedAttrs objC8 CopyAttrs.allMode
        = Except.error (PyErr.typeError "copy_attrs marker is not iterable")
    ∧ genSourceCopiedAttrs objC8 (CopyAttrs.names ["b"])
        = Except.ok [{ name := "b", value := ["2"] }]
    ∧ genSourceCopiedAttrs objC8 (CopyAttrs.names ["a", "c"])
        = Except.ok [{ name := "a", value := ["1"] },
                     { name := "c", value := ["3"] }] := by
  exact ⟨rfl, rfl, rfl, rfl, rfl, rfl⟩

/-- Put a source on the live queue and count it pending: the two statements
`self.source_q.put(source); self.to_parse += 1` used by
`ScrapeWorker.add_sources`. -/
def pushSource (st : WState) (s : Source) : WState :=
  { st with source_q := st.source_q ++ [s], to_parse := st.to_parse + 1 }

/-- `ScrapeWorker.add_sources` (scrape_worker.py:142-157).  `urlsInDb` is the
list produced by `get_scraped_urls` (a read of the already-stored records
through the external sink); when the phase is not synchronized the list used
for filtering is empty.  The forward-list of the previous phase is enqueued
filtered by that list; then the phase's own seed sources are enqueued
whenever active — unfiltered.  (The `from_db` branch at line 153-154 reads
the database into a local that is never used, so it has no effect on the
state.) -/
def addSources (st : WState) (phase : Phase) (urlsInDb : List String) :
    WState :=
  let udb := if phase.synchronize then urlsInDb else []
  let st1 := st.to_forward.foldl
    (fun acc s => if s.url ∈ udb then acc else pushSource acc s) st
  phase.sources.foldl
    (fun acc s => if s.active = true then pushSource acc s else acc) st1

theorem foldl_forward_q (l : List Source) (st : WState) (udb : List String) :
    (l.foldl (fun acc s => if s.url ∈ udb then acc else pushSource acc s)
        st).source_q
      = st.source_q ++ l.filter (fun s => decide (s.url ∉ udb)) := by
  induction l generalizing st with
  | nil => simp
  | cons a t ih =>
    simp only [List.foldl_cons, List.filter_cons]
    by_cases hmem : a.url ∈ udb
    · rw [if_pos hmem, ih]
      simp [hmem]
    · rw [if_neg hmem, ih]
      simp [pushSource, hmem, List.append_assoc]

theorem foldl_active_q (l : List Source) (st : WState) :
    (l.foldl (fun acc s => if s.active = true then pushSource acc s else acc)
        st).source_q
      = st.source_q ++ l.filter (fun s => s.active) := by
  induction l generalizing st with
  | nil => simp
  | cons a t ih =>
    simp only [List.foldl_cons, List.filter_cons]
    by_cases hact : a.active = true
    · rw [if_pos hact, ih]
      simp [pushSource, hact, List.append_assoc]
    · rw [if_neg hact, ih]
      simp [hact]

/-- The seed source of the C9 counterexample. -/
def seedC9 : Source := { url := "u" }

/-- The phase of the C9 counterexample: synchronized, one active seed. -/
def phaseC9 : Phase := { synchronize := true, sources := [seedC9] }

/-- C9, counterexample.  With `synchronize` set and the seed's url already
among the stored urls, the claim says the seed is excluded from the live
queue — but `add_sources` applies the `urls_in_db` filter only to the
forward-list, so the phase's own seed is enqueued anyway. -/
theorem c9_counterexample :
    phaseC9.synchronize = true
    ∧ seedC9.url ∈ ["u"]
    ∧ (addSources initState phaseC9 ["u"]).source_q = [seedC9] := by
  refine ⟨rfl, ?_, ?_⟩ <;> decide

/-- C9, amended.  When `synchronize` is set, only the sources forwarded from
the previous phase are diffed against the already-stored urls before
enqueuing; the phase's own seed sources are enqueued whenever active,
regardless of whether their urls are already stored. -/
theorem c9_amended_addSources (st : WState) (phase : Phase)
    (urlsInDb : List String) (h : phase.synchronize = true) :
    (addSources st phase urlsInDb).source_q
      = st.source_q
        ++ st.to_forward.filter (fun s => decide (s.url ∉ urlsInDb))
        ++ phase.sources.filter (fun s => s.active) := by
  unfold addSources
  simp only [h, if_true]
  rw [foldl_active_q, foldl_forward_q, List.append_assoc]

/-- C9, witness: a synchronized phase with one stored forwarded url (it is
excluded) and one active seed whose url is also stored (it is enqueued). -/
theorem c9_amended_witness :
    (addSources { to_forward := [{ url := "u" }, { url := "v" }] } phaseC9
        ["u"]).source_q
      = [{ url := "v" }, seedC9] := by
  have h := c9_amended_addSources
    { to_forward := [{ url := "u" }, { url := "v" }] } phaseC9 ["u"] rfl
  rw [h]
  decide

end Modelscraper
